import Mathlib

/-!
Verification of the Portainer stack-automation script
(`scripts/portainer-automation.py`): a shallow embedding of its
endpoint resolution, deploy orchestration, health validation and
command exit-code logic, with theorems checking the specification's
claims against the embedded code.

Remote HTTP calls are abstracted as inputs: the endpoint list, the
stack list, the per-poll service list and the success/failure of the
mutation call are parameters of the embedded functions, exactly as the
script consumes their JSON results.
-/

namespace Portainer

/-- An entry of the `/api/endpoints` response as the script reads it:
`ep['Id']`, `ep['Name']`, and `ep.get('Type')` (the key may be absent,
hence `Option`). -/
structure Endpoint where
  Id : Nat
  Name : String
  Type' : Option Nat
deriving Repr, DecidableEq

/-- Resolution failures raised by `get_endpoint_id`:
`ValueError("Endpoint '...' not found")` and
`ValueError("No valid endpoint found")`. -/
inductive ResolutionError where
  | NotFound
  | NoneAvailable
deriving Repr, DecidableEq

/-- The fallback scan of `get_endpoint_id` (lines 111-116): the first
endpoint whose `Type` is in `[1, 2]` (Docker or Swarm), else
`ValueError("No valid endpoint found")`. -/
def first_swarm_endpoint (endpoints : List Endpoint) : Except ResolutionError Nat :=
  match endpoints.find? (fun ep => ep.Type' == some 1 || ep.Type' == some 2) with
  | some ep => Except.ok ep.Id
  | none => Except.error ResolutionError.NoneAvailable

/-- Embedding of `PortainerClient.get_endpoint_id` (lines 93-116).  The Python guard
is `if endpoint_name:`, which is truthiness: `None` and the empty
string both fall through to the default (first Docker/Swarm endpoint)
scan.  A non-empty name is looked up by exact match, first match wins,
`ValueError` if none matches. -/
def get_endpoint_id (endpoints : List Endpoint) (endpoint_name : Option String) :
    Except ResolutionError Nat :=
  match endpoint_name with
  | some n =>
      if n = "" then
        first_swarm_endpoint endpoints
      else
        match endpoints.find? (fun ep => ep.Name == n) with
        | some ep => Except.ok ep.Id
        | none => Except.error ResolutionError.NotFound
  | none => first_swarm_endpoint endpoints

/-- An entry of the `/api/stacks` response as the script reads it:
`stack['Id']`, `stack['Name']`, `stack.get('EndpointId')` (absent key
gives `None`, hence `Option`). -/
structure Stack where
  Id : Nat
  Name : String
  EndpointId : Option Nat
deriving Repr, DecidableEq

/-- One `KEY=VALUE` environment override, as the `{"name": k, "value": v}`
dicts built by `cmd_deploy`. -/
structure EnvVar where
  name : String
  value : String
deriving Repr, DecidableEq

/-- The stack mutation `cmd_deploy` issues: either
`update_stack(stack_id, compose_content, endpoint_id, env_vars)` (with
`prune` left at its default `True`) or
`deploy_stack(stack_name, compose_content, endpoint_id, env_vars)`. -/
inductive StackAction where
  | update (stack_id : Nat) (content : String) (endpoint_id : Nat)
      (env : List EnvVar) (prune : Bool)
  | create (name : String) (content : String) (endpoint_id : Nat)
      (env : List EnvVar)
deriving Repr, DecidableEq

/-- The existing-stack scan of `cmd_deploy` (lines 370-375): first stack
with `stack['Name'] == args.stack_name and stack.get('EndpointId') == endpoint_id`. -/
def find_existing_stack (stack_list : List Stack) (stack_name : String) (endpoint_id : Nat) :
    Option Stack :=
  stack_list.find? (fun s => s.Name == stack_name && s.EndpointId == some endpoint_id)

/-- The create-vs-update decision of `cmd_deploy` (lines 370-395): update
the found stack (its `Id`, the new content, resolved endpoint, env,
`prune=True` by `update_stack`'s default), else create with the
requested name, content, endpoint and env. -/
def deploy_action (stack_list : List Stack) (stack_name content : String)
    (endpoint_id : Nat) (env : List EnvVar) : StackAction :=
  match find_existing_stack stack_list stack_name endpoint_id with
  | some s => StackAction.update s.Id content endpoint_id env true
  | none => StackAction.create stack_name content endpoint_id env

/-- A service's scheduling mode as `validate_deployment` reads it from
`svc['Spec'].get('Mode', {})`: the dict either has a `Replicated` key
(whose `Replicas` sub-key may be absent, hence `Option`) or it does not
(the script's `else` branch, treated as global mode). -/
inductive ServiceMode where
  | replicated (replicas : Option Nat)
  | globalMode
deriving Repr, DecidableEq

/-- A service entry of the Docker services response as
`validate_deployment` reads it: `svc['Spec']['Name']`, the mode dict,
and `svc.get('ServiceStatus', {}).get('RunningTasks', 0)` (both `get`
defaults collapse a missing count into 0). -/
structure Service where
  Name : String
  Mode : ServiceMode
  RunningTasks : Nat
deriving Repr, DecidableEq

/-- The per-service health test of `validate_deployment` (lines
293-312): replicated services compare `running >= desired` with
`desired = mode['Replicated'].get('Replicas', 0)`; any other mode is
the global branch, healthy when `running > 0`. -/
def serviceHealthy (svc : Service) : Bool :=
  match svc.Mode with
  | ServiceMode.replicated replicas => decide (replicas.getD 0 ≤ svc.RunningTasks)
  | ServiceMode.globalMode => decide (0 < svc.RunningTasks)

/-- The `all_healthy` accumulator of one polling pass (lines 289-312):
starts `True` and is cleared by every unhealthy service. -/
def all_services_healthy (services : List Service) : Bool :=
  services.foldl (fun acc svc => acc && serviceHealthy svc) true

/-- The polling loop of `validate_deployment` (lines 279-321), with
time explicit: `elapsed` is the seconds accumulated by the `sleep(5)`
calls (remote calls are instantaneous in this model), `polls` counts
the `get_stack_services` fetches so far, and `fetch n` is the service
list the n-th fetch returns.  Each iteration runs only while
`elapsed < timeout`; an empty fetch sleeps and retries, a healthy
evaluation returns `True` before any further sleep, an unhealthy one
sleeps and retries; falling out of the loop returns `False`.  The
result carries the verdict, the total fetch count and the final
elapsed time. -/
def validateLoop (fetch : Nat → List Service) (timeout : Int)
    (elapsed polls : Nat) : Bool × Nat × Nat :=
  if h : (elapsed : Int) < timeout then
    let services := fetch polls
    if services.isEmpty then
      validateLoop fetch timeout (elapsed + 5) (polls + 1)
    else if all_services_healthy services then
      (true, polls + 1, elapsed)
    else
      validateLoop fetch timeout (elapsed + 5) (polls + 1)
  else
    (false, polls, elapsed)
termination_by (timeout - (elapsed : Int)).toNat
decreasing_by
  all_goals omega

/-- Embedding of `PortainerClient.validate_deployment` (lines 265-321): the loop
started at zero elapsed time with no fetch performed yet; only the
boolean verdict is the Python return value, the counters are the
observable fetch/sleep behaviour. -/
def validate_deployment (fetch : Nat → List Service) (timeout : Int) : Bool :=
  (validateLoop fetch timeout 0 0).1

/-- Outcome of the create-or-update HTTP mutation inside `cmd_deploy`'s
`try` block: either the 2xx path or a `requests.exceptions.HTTPError`
raised by `raise_for_status()`. -/
inductive MutationResult where
  | success
  | httpError
deriving Repr, DecidableEq

/-- Embedding of `cmd_deploy` (lines 344-412), reduced to its observable control
flow: (exit code, whether `validate_deployment` was invoked).  The
compose-file existence check, endpoint resolution, the mutation's HTTP
outcome and the validation verdict gate the paths exactly as in the
script: a missing file, a resolution `ValueError` or an `HTTPError`
each return 1 before validation; on mutation success validation is
skipped when `--no-validate` is set, and a false verdict returns 1. -/
def cmd_deploy_exit (compose_exists : Bool) (endpoints : List Endpoint)
    (endpoint_name : Option String) (mutation : MutationResult)
    (no_validate : Bool) (validation_ok : Bool) : Nat × Bool :=
  if compose_exists = false then (1, false)
  else
    match get_endpoint_id endpoints endpoint_name with
    | Except.error _ => (1, false)
    | Except.ok _ =>
      match mutation with
      | MutationResult.httpError => (1, false)
      | MutationResult.success =>
        if no_validate then (0, false)
        else if validation_ok then (0, true)
        else (1, true)

/-- Embedding of `main` (lines 492-499) around the deploy command: a failed
`authenticate` returns 1 before the command runs. -/
def run_deploy (auth_ok : Bool) (compose_exists : Bool) (endpoints : List Endpoint)
    (endpoint_name : Option String) (mutation : MutationResult)
    (no_validate : Bool) (validation_ok : Bool) : Nat × Bool :=
  if auth_ok = false then (1, false)
  else cmd_deploy_exit compose_exists endpoints endpoint_name mutation no_validate validation_ok

/-- The stack scan of `cmd_delete` (lines 420-421): first stack whose
`Name` equals the requested name — the endpoint is not consulted. -/
def cmd_delete_select (stack_list : List Stack) (stack_name : String) : Option Stack :=
  stack_list.find? (fun s => s.Name == stack_name)

/-- Embedding of `cmd_delete` (lines 415-431) with `--yes` set: the issued
`delete_stack(stack['Id'], endpoint_id)` call (if any) and the exit
code — the deletion targets the selected stack's id but the resolved
endpoint id. -/
def cmd_delete_action (stack_list : List Stack) (stack_name : String)
    (endpoint_id : Nat) : Option (Nat × Nat) × Nat :=
  match cmd_delete_select stack_list stack_name with
  | some s => (some (s.Id, endpoint_id), 0)
  | none => (none, 1)

/-- Ceiling division by the fixed 5-second polling interval:
`ceil5 t = ⌈t / 5⌉`. -/
def ceil5 (t : Nat) : Nat := (t + 4) / 5

theorem foldl_and_healthy (l : List Service) (b : Bool) :
    l.foldl (fun acc svc => acc && serviceHealthy svc) b = (b && l.all serviceHealthy) := by
  induction l generalizing b with
  | nil => simp
  | cons x xs ih => simp [List.foldl_cons, List.all_cons, ih, Bool.and_assoc]

theorem all_services_healthy_eq_all (services : List Service) :
    all_services_healthy services = services.all serviceHealthy := by
  simp [all_services_healthy, foldl_and_healthy]

/-- C2: one polling pass is healthy exactly when every replicated
service with a configured replica count runs at least that many tasks
and every global-mode service runs at least one task; the overall
verdict is the conjunction over all services in the poll. -/
theorem poll_health_classification (services : List Service) :
    all_services_healthy services = true ↔
      ∀ svc ∈ services,
        (∀ r : Nat, svc.Mode = ServiceMode.replicated (some r) → r ≤ svc.RunningTasks) ∧
        (svc.Mode = ServiceMode.globalMode → 0 < svc.RunningTasks) := by
  rw [all_services_healthy_eq_all, List.all_eq_true]
  constructor
  · intro h svc hm
    have hs := h svc hm
    refine ⟨?_, ?_⟩
    · intro r hr
      rw [serviceHealthy, hr] at hs
      simpa using hs
    · intro hg
      rw [serviceHealthy, hg] at hs
      simpa using hs
  · intro h svc hm
    obtain ⟨h1, h2⟩ := h svc hm
    rw [serviceHealthy]
    cases hmode : svc.Mode with
    | replicated r =>
      cases r with
      | none => simp
      | some v => simpa using h1 v hmode
    | globalMode => simpa using h2 hmode

/-- C2 witness: a concrete healthy poll (one replicated service at its
configured count, one global service with a running task) evaluates to
an overall healthy verdict. -/
theorem poll_health_classification_witness :
    all_services_healthy
      [⟨"web", ServiceMode.replicated (some 2), 2⟩,
       ⟨"agent", ServiceMode.globalMode, 1⟩] = true := by
  refine (poll_health_classification _).mpr ?_
  intro svc hm
  rcases List.mem_cons.mp hm with rfl | hm2
  · refine ⟨?_, ?_⟩
    · intro r hr
      injection hr with h
      injection h with h2
      rw [← h2]
    · intro hg
      exact ServiceMode.noConfusion hg
  · rcases List.mem_cons.mp hm2 with rfl | hm3
    · refine ⟨?_, ?_⟩
      · intro r hr
        exact ServiceMode.noConfusion hr
      · intro _
        decide
    · exact absurd hm3 (List.not_mem_nil svc)

/-- C9: a replicated-mode service whose spec carries no `Replicas` key
is evaluated against a desired count of 0, so it is classified healthy
whatever its running-task count. -/
theorem replicated_missing_replicas_healthy (svc : Service)
    (h : svc.Mode = ServiceMode.replicated none) :
    serviceHealthy svc = true := by
  rw [serviceHealthy, h]
  simp

/-- C9 witness: a replicated service with no configured replica count
and zero running tasks is classified healthy. -/
theorem replicated_missing_replicas_healthy_witness :
    serviceHealthy ⟨"db", ServiceMode.replicated none, 0⟩ = true :=
  replicated_missing_replicas_healthy ⟨"db", ServiceMode.replicated none, 0⟩ rfl

/-- C5 counterexample: requesting the empty-string endpoint name, which
matches no entry, does not produce the not-found error — the Python
truthiness guard `if endpoint_name:` treats it as absent and falls back
to the default first-Docker/Swarm selection, returning endpoint 1. -/
theorem resolve_empty_name_counterexample :
    (∀ ep ∈ [(⟨1, "prod", some 2⟩ : Endpoint)], ep.Name ≠ "") ∧
    get_endpoint_id [⟨1, "prod", some 2⟩] (some "") = Except.ok 1 := by
  refine ⟨?_, rfl⟩
  intro ep hm
  rcases List.mem_singleton.mp hm with rfl
  decide

/-- C5 (amended): for every NON-empty requested endpoint name, when no
entry's name matches exactly, resolution yields the not-found error and
never falls back to a default; when the linear scan finds a first exact
match, that entry's identifier is returned.  (The empty-string name is
treated as absent by the truthiness guard and uses default selection.) -/
theorem resolve_named_endpoint (endpoints : List Endpoint) (n : String) (hn : n ≠ "") :
    ((∀ ep ∈ endpoints, ep.Name ≠ n) →
        get_endpoint_id endpoints (some n) = Except.error ResolutionError.NotFound) ∧
    (∀ ep : Endpoint, endpoints.find? (fun e => e.Name == n) = some ep →
        ep.Name = n ∧ get_endpoint_id endpoints (some n) = Except.ok ep.Id) := by
  constructor
  · intro hall
    have hfind : endpoints.find? (fun e => e.Name == n) = none := by
      rw [List.find?_eq_none]
      intro e he
      simpa using hall e he
    simp [get_endpoint_id, hn, hfind]
  · intro ep hfind
    have hname := List.find?_some hfind
    refine ⟨by simpa using hname, ?_⟩
    simp [get_endpoint_id, hn, hfind]

/-- C5 witness: resolving the name `staging` against a list holding
only `prod` yields the not-found error. -/
theorem resolve_named_endpoint_witness :
    get_endpoint_id [⟨1, "prod", some 2⟩] (some "staging") =
      Except.error ResolutionError.NotFound := by
  refine (resolve_named_endpoint [⟨1, "prod", some 2⟩] "staging" (by decide)).1 ?_
  intro ep hm
  rcases List.mem_singleton.mp hm with rfl
  decide

/-- C6: with no requested name, resolution errs with none-available
exactly when no listed endpoint has capability type 1 or 2 (in
particular when the list is empty), and otherwise returns the
identifier of the first endpoint of type 1 or 2 found by the scan. -/
theorem resolve_default_endpoint (endpoints : List Endpoint) :
    (get_endpoint_id endpoints none = Except.error ResolutionError.NoneAvailable ↔
        ∀ ep ∈ endpoints, ep.Type' ≠ some 1 ∧ ep.Type' ≠ some 2) ∧
    (∀ ep : Endpoint,
        endpoints.find? (fun e => e.Type' == some 1 || e.Type' == some 2) = some ep →
        get_endpoint_id endpoints none = Except.ok ep.Id) := by
  rcases hf : endpoints.find? (fun e => e.Type' == some 1 || e.Type' == some 2) with _ | ep0
  · have hok : get_endpoint_id endpoints none = Except.error ResolutionError.NoneAvailable := by
      simp [get_endpoint_id, first_swarm_endpoint, hf]
    constructor
    · constructor
      · intro _ ep hm
        have hq := List.find?_eq_none.mp hf ep hm
        simpa [not_or] using hq
      · intro _
        exact hok
    · intro ep h'
      rw [hf] at h'
      cases h'
  · have hok : get_endpoint_id endpoints none = Except.ok ep0.Id := by
      simp [get_endpoint_id, first_swarm_endpoint, hf]
    constructor
    · constructor
      · intro herr
        rw [hok] at herr
        cases herr
      · intro hall
        have hmem := List.mem_of_find?_eq_some hf
        have hq := List.find?_some hf
        obtain ⟨h1, h2⟩ := hall ep0 hmem
        simp at hq
        rcases hq with hq | hq
        · exact absurd hq h1
        · exact absurd hq h2
    · intro ep h'
      rw [hf] at h'
      injection h' with he
      rw [← he]
      exact hok

/-- C6 witness: the spec scenario — a single type-2 endpoint named
`prod` with no name requested resolves to endpoint id 1. -/
theorem resolve_default_endpoint_witness :
    get_endpoint_id [⟨1, "prod", some 2⟩] none = Except.ok 1 :=
  (resolve_default_endpoint [⟨1, "prod", some 2⟩]).2 ⟨1, "prod", some 2⟩ rfl

/-- C1: the orchestrator takes the update branch exactly when the
fetched stack list holds an entry matching the requested name AND the
resolved endpoint id, in which case update is issued with that entry's
stack id, the new content, the endpoint, the env list and prune=true;
with no such entry it takes the create branch with the requested name,
content, endpoint id and env list. -/
theorem deploy_branch_decision (stack_list : List Stack) (stack_name content : String)
    (endpoint_id : Nat) (env : List EnvVar) :
    ((∃ s ∈ stack_list, s.Name = stack_name ∧ s.EndpointId = some endpoint_id) →
        ∃ s ∈ stack_list, s.Name = stack_name ∧ s.EndpointId = some endpoint_id ∧
          deploy_action stack_list stack_name content endpoint_id env =
            StackAction.update s.Id content endpoint_id env true) ∧
    ((∀ s ∈ stack_list, ¬(s.Name = stack_name ∧ s.EndpointId = some endpoint_id)) →
        deploy_action stack_list stack_name content endpoint_id env =
          StackAction.create stack_name content endpoint_id env) := by
  constructor
  · intro hex
    rcases hf : stack_list.find?
        (fun s => s.Name == stack_name && s.EndpointId == some endpoint_id) with _ | s0
    · obtain ⟨s, hm, hname, hep⟩ := hex
      have hq := List.find?_eq_none.mp hf s hm
      simp [hname, hep] at hq
    · have hmem := List.mem_of_find?_eq_some hf
      have hp := List.find?_some hf
      simp at hp
      refine ⟨s0, hmem, hp.1, hp.2, ?_⟩
      simp [deploy_action, find_existing_stack, hf]
  · intro hall
    have hf : stack_list.find?
        (fun s => s.Name == stack_name && s.EndpointId == some endpoint_id) = none := by
      rw [List.find?_eq_none]
      intro s hm
      have hq := hall s hm
      simpa using hq
    simp [deploy_action, find_existing_stack, hf]

/-- C1 witness: the spec scenario — with an existing stack (id 7, name
`app`) on endpoint 1, deploying `app` to endpoint 1 takes the update
branch with stack id 7 and prune=true. -/
theorem deploy_branch_decision_witness :
    deploy_action [⟨7, "app", some 1⟩] "app" "version:1" 1 [] =
      StackAction.update 7 "version:1" 1 [] true := by
  obtain ⟨s, hm, hname, hep, hact⟩ :=
    (deploy_branch_decision [⟨7, "app", some 1⟩] "app" "version:1" 1 []).1
      ⟨⟨7, "app", some 1⟩, by simp, rfl, rfl⟩
  rcases List.mem_singleton.mp hm with rfl
  exact hact

/-- C8: the delete command selects the first stack matching by name
alone — its endpoint is not compared with the resolved one — and issues
the deletion of that stack's id against the resolved endpoint; with
same-named stacks on two endpoints it can therefore select a stack
belonging to a different endpoint than the resolved one. -/
theorem delete_selects_by_name_only :
    (∀ (stack_list : List Stack) (stack_name : String) (endpoint_id : Nat),
        (∃ s ∈ stack_list, s.Name = stack_name) →
        ∃ s ∈ stack_list, s.Name = stack_name ∧
          cmd_delete_select stack_list stack_name = some s ∧
          cmd_delete_action stack_list stack_name endpoint_id =
            (some (s.Id, endpoint_id), 0)) ∧
    (∃ s : Stack,
        cmd_delete_select [⟨7, "app", some 2⟩, ⟨9, "app", some 1⟩] "app" = some s ∧
        s.EndpointId ≠ some 1 ∧
        (∃ s2 ∈ [(⟨7, "app", some 2⟩ : Stack), ⟨9, "app", some 1⟩],
            s2.Name = "app" ∧ s2.EndpointId = some 1) ∧
        cmd_delete_action [⟨7, "app", some 2⟩, ⟨9, "app", some 1⟩] "app" 1 =
          (some (7, 1), 0)) := by
  constructor
  · intro stack_list stack_name endpoint_id hex
    rcases hf : stack_list.find? (fun s => s.Name == stack_name) with _ | s0
    · obtain ⟨s, hm, hname⟩ := hex
      have hq := List.find?_eq_none.mp hf s hm
      simp [hname] at hq
    · have hmem := List.mem_of_find?_eq_some hf
      have hp := List.find?_some hf
      simp at hp
      refine ⟨s0, hmem, hp, ?_, ?_⟩
      · simpa [cmd_delete_select] using hf
      · simp [cmd_delete_action, cmd_delete_select, hf]
  · refine ⟨⟨7, "app", some 2⟩, rfl, by decide, ⟨⟨9, "app", some 1⟩, by simp, rfl, rfl⟩, rfl⟩

/-- C8 witness: deleting `app` with resolved endpoint 1 on a one-entry
registry issues the delete of stack id 7 against endpoint 1. -/
theorem delete_selects_by_name_only_witness :
    cmd_delete_action [⟨7, "app", some 2⟩] "app" 1 = (some (7, 1), 0) := by
  obtain ⟨s, hm, hname, hsel, hact⟩ :=
    delete_selects_by_name_only.1 [⟨7, "app", some 2⟩] "app" 1
      ⟨⟨7, "app", some 2⟩, by simp, rfl⟩
  rcases List.mem_singleton.mp hm with rfl
  exact hact

/-- C7: a deploy run whose mutation raises an HTTP error exits 1
without invoking validation; the exit code is 0 exactly when
authentication, compose-file existence, endpoint resolution and the
mutation all succeed and validation is skipped or passes; every run
exits 0 or 1. -/
theorem deploy_exit_codes (auth_ok compose_exists : Bool) (endpoints : List Endpoint)
    (endpoint_name : Option String) (mutation : MutationResult)
    (no_validate validation_ok : Bool) :
    (mutation = MutationResult.httpError →
        run_deploy auth_ok compose_exists endpoints endpoint_name mutation
          no_validate validation_ok = (1, false)) ∧
    ((run_deploy auth_ok compose_exists endpoints endpoint_name mutation
          no_validate validation_ok).1 = 0 ↔
        auth_ok = true ∧ compose_exists = true ∧
        (∃ eid, get_endpoint_id endpoints endpoint_name = Except.ok eid) ∧
        mutation = MutationResult.success ∧
        (no_validate = true ∨ validation_ok = true)) ∧
    ((run_deploy auth_ok compose_exists endpoints endpoint_name mutation
          no_validate validation_ok).1 = 0 ∨
      (run_deploy auth_ok compose_exists endpoints endpoint_name mutation
          no_validate validation_ok).1 = 1) := by
  rcases hg : get_endpoint_id endpoints endpoint_name with e | eid <;>
    cases auth_ok <;> cases compose_exists <;> cases mutation <;>
    cases no_validate <;> cases validation_ok <;>
    simp [run_deploy, cmd_deploy_exit, hg]

/-- C7 witness: a run whose mutation fails with an HTTP error exits 1
and never reaches validation. -/
theorem deploy_exit_codes_witness :
    run_deploy true true [⟨1, "prod", some 2⟩] none MutationResult.httpError
      false true = (1, false) :=
  (deploy_exit_codes true true [⟨1, "prod", some 2⟩] none MutationResult.httpError
    false true).1 rfl

theorem validateLoop_never_healthy (fetch : Nat → List Service) (timeout : Int)
    (hfail : ∀ n, ∃ svc ∈ fetch n, serviceHealthy svc = false) :
    ∀ T : Nat, ∀ elapsed polls : Nat, (timeout - (elapsed : Int)).toNat = T →
      validateLoop fetch timeout elapsed polls =
        (false, polls + ceil5 T, elapsed + 5 * ceil5 T) := by
  intro T
  induction T using Nat.strong_induction_on with
  | _ T ih =>
    intro elapsed polls hT
    rw [validateLoop]
    by_cases h : (elapsed : Int) < timeout
    · obtain ⟨x, hxm, hxu⟩ := hfail polls
      have hne : (fetch polls).isEmpty = false := by
        rcases hfp : fetch polls with _ | ⟨a, as⟩
        · rw [hfp] at hxm
          exact absurd hxm (List.not_mem_nil x)
        · rfl
      have hall : all_services_healthy (fetch polls) = false := by
        rw [all_services_healthy_eq_all]
        exact List.all_eq_false.mpr ⟨x, hxm, by simp [hxu]⟩
      have hrec := ih ((timeout - ((elapsed + 5 : Nat) : Int)).toNat) (by omega)
        (elapsed + 5) (polls + 1) rfl
      simp only [h, dite_true, hne, hall, Bool.false_eq_true, if_false, hrec]
      have hc : ceil5 T = 1 + ceil5 ((timeout - ((elapsed + 5 : Nat) : Int)).toNat) := by
        simp only [ceil5]
        omega
      rw [hc]
      simp only [Prod.mk.injEq]
      refine ⟨trivial, ?_, ?_⟩ <;> omega
    · have hT0 : T = 0 := by omega
      simp [h, hT0, ceil5]

/-- C3: with a positive timeout and a service set in which some service
is unhealthy on every poll, validation returns false; the loop fetches
the service list exactly ⌈timeout/5⌉ times with one fixed 5-second
sleep after each fetch, so the total elapsed time 5·⌈timeout/5⌉ reaches
the timeout but overshoots it by less than one polling interval. -/
theorem validate_deployment_times_out (fetch : Nat → List Service) (timeout : Int)
    (hpos : 0 < timeout)
    (hfail : ∀ n, ∃ svc ∈ fetch n, serviceHealthy svc = false) :
    validate_deployment fetch timeout = false ∧
    validateLoop fetch timeout 0 0 =
      (false, ceil5 timeout.toNat, 5 * ceil5 timeout.toNat) ∧
    timeout ≤ (5 * ceil5 timeout.toNat : Int) ∧
    ((5 * ceil5 timeout.toNat : Int) < timeout + 5) := by
  have h := validateLoop_never_healthy fetch timeout hfail timeout.toNat 0 0 (by omega)
  refine ⟨?_, ?_, ?_, ?_⟩
  · rw [validate_deployment, h]
  · simpa using h
  · simp only [ceil5]
    omega
  · simp only [ceil5]
    omega

/-- C3 witness: a never-healthy replicated service under a 7-second
timeout gives verdict false after 2 = ⌈7/5⌉ polls and 10 elapsed
seconds. -/
theorem validate_deployment_times_out_witness :
    validateLoop (fun _ => [⟨"web", ServiceMode.replicated (some 2), 0⟩]) 7 0 0 =
      (false, 2, 10) := by
  have h := validate_deployment_times_out
    (fun _ => [⟨"web", ServiceMode.replicated (some 2), 0⟩]) 7 (by decide)
    (fun n => ⟨⟨"web", ServiceMode.replicated (some 2), 0⟩, by simp, rfl⟩)
  simpa [ceil5] using h.2.1

/-- C4: when the first fetch returns a non-empty service list in which
every service already satisfies its health condition, validation with a
positive timeout returns true after exactly one fetch and zero elapsed
sleep time. -/
theorem validate_deployment_first_poll (fetch : Nat → List Service) (timeout : Int)
    (hpos : 0 < timeout) (hne : fetch 0 ≠ [])
    (hh : ∀ svc ∈ fetch 0, serviceHealthy svc = true) :
    validate_deployment fetch timeout = true ∧
    validateLoop fetch timeout 0 0 = (true, 1, 0) := by
  have hempty : (fetch 0).isEmpty = false := by
    rcases hfp : fetch 0 with _ | ⟨a, as⟩
    · exact absurd hfp hne
    · rfl
  have hall : all_services_healthy (fetch 0) = true := by
    rw [all_services_healthy_eq_all, List.all_eq_true]
    exact hh
  have hloop : validateLoop fetch timeout 0 0 = (true, 1, 0) := by
    rw [validateLoop]
    simp [hpos, hempty, hall]
  exact ⟨by rw [validate_deployment, hloop], hloop⟩

/-- C4 witness: a service set already at its configured scale under a
120-second timeout succeeds on the first poll with no sleep. -/
theorem validate_deployment_first_poll_witness :
    validateLoop (fun _ => [⟨"web", ServiceMode.replicated (some 2), 2⟩]) 120 0 0 =
      (true, 1, 0) :=
  (validate_deployment_first_poll (fun _ => [⟨"web", ServiceMode.replicated (some 2), 2⟩])
    120 (by decide) (by simp)
    (by
      intro svc hm
      rcases List.mem_singleton.mp hm with rfl
      rfl)).2

/-- C10: a non-positive timeout makes validation fail immediately: the
loop returns false with zero service-list fetches and zero elapsed
sleep time, whatever the fetches would have reported. -/
theorem validate_deployment_nonpositive_timeout (fetch : Nat → List Service)
    (timeout : Int) (h : timeout ≤ 0) :
    validate_deployment fetch timeout = false ∧
    validateLoop fetch timeout 0 0 = (false, 0, 0) := by
  have hloop : validateLoop fetch timeout 0 0 = (false, 0, 0) := by
    rw [validateLoop]
    simp
    omega
  exact ⟨by rw [validate_deployment, hloop], hloop⟩

/-- C10 witness: timeout 0 returns false without fetching even though
the (never consulted) service set is fully healthy. -/
theorem validate_deployment_nonpositive_timeout_witness :
    validateLoop (fun _ => [⟨"web", ServiceMode.replicated (some 2), 2⟩]) 0 0 0 =
      (false, 0, 0) :=
  (validate_deployment_nonpositive_timeout
    (fun _ => [⟨"web", ServiceMode.replicated (some 2), 2⟩]) 0 (by decide)).2

end Portainer
